import Mathlib

/-!
Verification of the electricity tariff engine.

The engine consists of `calculate_bill` (calculator.py) — a pure function
from (tariff year, customer category, consumption in kWh) to an itemized
bill — and `invert_bill_to_kwh` (app.py) — an exponential-bracket plus
bisection search recovering consumption from a target bill total.

Python floats are modelled by exact rationals `ℚ`; the decimal literals of
the source are exact decimal fractions, so every tariff constant is
represented exactly.  The `raise` statements of the source are modelled by
`Except`: `ConfigurationError` / `InvalidInputError` for the calculator
(the spec's taxonomy of the two `ValueError` sites) and `SearchBoundError`
(`RuntimeError` in the source) for the inversion search.
-/

-- ----------------------------
-- Constants (calculator.py lines 12-15)
-- ----------------------------

def RES_LIFELINE_MAX : ℚ := 30

def BLOCK_300 : ℚ := 300

def LEVY_RATE : ℚ := 0.05

def TAX_RATE : ℚ := 0.20

-- ----------------------------
-- Tariff data (calculator.py lines 20-59)
-- ----------------------------

/-- The nine named unit rates of one tariff year ("rates" dict). -/
structure Rates where
  RES_LIFELINE : ℚ
  RES_B1 : ℚ
  RES_B2 : ℚ
  NONRES_B1 : ℚ
  NONRES_B2 : ℚ
  SLT_LV : ℚ
  SLT_MV1 : ℚ
  SLT_MV2 : ℚ
  SLT_HV : ℚ
deriving DecidableEq, Repr

/-- The four flat service charges of one tariff year ("service" dict). -/
structure ServiceCharges where
  residentialLifeline : ℚ   -- key "Residential (Lifeline)"
  residentialOther : ℚ      -- key "Residential (Other)"
  nonResidential : ℚ        -- key "Non-Residential"
  SLT : ℚ                   -- key "SLT"
deriving DecidableEq, Repr

/-- One year's entry of the tariff table. -/
structure Tariff where
  rates : Rates
  service : ServiceCharges
deriving DecidableEq, Repr

/-- The "2025" entry of `TARIFFS`. -/
def tariff2025 : Tariff :=
  { rates :=
      { RES_LIFELINE := 80.4389 / 100
        RES_B1 := 182.2442 / 100
        RES_B2 := 240.8059 / 100
        NONRES_B1 := 164.5377 / 100
        NONRES_B2 := 204.4809 / 100
        SLT_LV := 245.5597 / 100
        SLT_MV1 := 196.0119 / 100
        SLT_MV2 := 127.8861 / 100
        SLT_HV := 196.0119 / 100 }
    service :=
      { residentialLifeline := 2.13
        residentialOther := 10.7301
        nonResidential := 12.428
        SLT := 500.00 } }

/-- The "2026" entry of `TARIFFS`. -/
def tariff2026 : Tariff :=
  { rates :=
      { RES_LIFELINE := 88.3739 / 100
        RES_B1 := 200.2218 / 100
        RES_B2 := 264.5604 / 100
        NONRES_B1 := 180.7687 / 100
        NONRES_B2 := 224.6521 / 100
        SLT_LV := 269.7832 / 100
        SLT_MV1 := 215.3477 / 100
        SLT_MV2 := 134.2804 / 100
        SLT_HV := 215.3477 / 100 }
    service :=
      { residentialLifeline := 2.13
        residentialOther := 10.730886
        nonResidential := 12.428245
        SLT := 500.00 } }

/-- The tariff table: year string to tariff data (`year in TARIFFS` is
modelled by this returning `some`). -/
def TARIFFS (year : String) : Option Tariff :=
  if year = "2025" then some tariff2025
  else if year = "2026" then some tariff2026
  else none

-- ----------------------------
-- Data models (calculator.py lines 64-79)
-- ----------------------------

/-- One itemized line of a bill (`BillLine` dataclass). -/
structure BillLine where
  label : String
  amount : ℚ
deriving DecidableEq, Repr

/-- The structured result of a calculation (`BillResult` dataclass). -/
structure BillResult where
  year : String
  category : String
  kwh : ℚ
  energy_charge : ℚ
  service_charge : ℚ
  levy : ℚ
  tax : ℚ
  total : ℚ
  breakdown : List BillLine
deriving DecidableEq, Repr

-- ----------------------------
-- Errors (spec taxonomy of the source's raise sites)
-- ----------------------------

/-- Errors raised by `calculate_bill`: the year-lookup failure
(`ConfigurationError` in the spec) and the two input defects
(`InvalidInputError`), each with the source's message. -/
inductive CalcError where
  | configurationError (msg : String)
  | invalidInputError (msg : String)
deriving DecidableEq, Repr

/-- Errors surfaced by `invert_bill_to_kwh`: its own bracket failure
(`SearchBoundError`, a `RuntimeError` in the source) or a propagated
calculator error. -/
inductive InvertError where
  | searchBoundError (msg : String)
  | calcError (e : CalcError)
deriving DecidableEq, Repr

-- ----------------------------
-- Helpers (calculator.py lines 84-85)
-- ----------------------------

/-- Helper `is_taxable`: `not category.startswith("Residential")`.  Python's
`startswith` is the string-prefix test, modelled on the character lists. -/
def is_taxable (category : String) : Bool :=
  !(("Residential".toList).isPrefixOf category.toList)

-- ----------------------------
-- Core calculation (calculator.py lines 90-165)
-- ----------------------------

/-- The tail of `calculate_bill` shared by every category branch
(calculator.py lines 144-165): levy, tax, the four closing breakdown
lines, the total, and the assembled `BillResult`. -/
def finishBill (year category : String) (kwh energy service : ℚ)
    (energyLines : List BillLine) : BillResult :=
  let levy := LEVY_RATE * energy
  let tax := if is_taxable category then TAX_RATE * (energy + service) else 0
  let total := energy + service + levy + tax
  { year := year
    category := category
    kwh := kwh
    energy_charge := energy
    service_charge := service
    levy := levy
    tax := tax
    total := total
    breakdown := energyLines ++
      [⟨"Service charge", service⟩, ⟨"Levies", levy⟩, ⟨"Taxes", tax⟩,
       ⟨"Total payable", total⟩] }

/-- The `rate_map` lookup of the special-load-tariff branch
(calculator.py lines 131-139): `none` models `category not in rate_map`. -/
def sltRate (rates : Rates) (category : String) : Option ℚ :=
  if category = "SLT-LV" then some rates.SLT_LV
  else if category = "SLT-MV1/HV" then some rates.SLT_MV1
  else if category = "SLT-MV2" then some rates.SLT_MV2
  else if category = "SLT-HV" then some rates.SLT_HV
  else if category = "SLT-HV MINES" then some rates.SLT_HV
  else none

/-- Core operation `calculate_bill(year, category, kwh)` (calculator.py lines 90-165). -/
def calculate_bill (year category : String) (kwh : ℚ) :
    Except CalcError BillResult :=
  match TARIFFS year with
  | none => .error (.configurationError "Unsupported tariff year.")
  | some tariff =>
    if kwh < 0 then .error (.invalidInputError "kWh cannot be negative.")
    else
      let rates := tariff.rates
      let services := tariff.service
      if category = "Residential" then
        if kwh ≤ RES_LIFELINE_MAX then
          let energy := kwh * rates.RES_LIFELINE
          let service := services.residentialLifeline
          .ok (finishBill year category kwh energy service
            [⟨"Energy charge (Lifeline)", energy⟩])
        else
          let kwh_b1 := min kwh BLOCK_300
          let kwh_b2 := max 0 (kwh - BLOCK_300)
          let e1 := kwh_b1 * rates.RES_B1
          let e2 := kwh_b2 * rates.RES_B2
          let energy := e1 + e2
          let service := services.residentialOther
          .ok (finishBill year category kwh energy service
            ([⟨"Energy charge block 1", e1⟩] ++
             (if kwh_b2 > 0 then [⟨"Energy charge block 2", e2⟩] else [])))
      else if category = "Non-Residential" then
        let kwh_b1 := min kwh BLOCK_300
        let kwh_b2 := max 0 (kwh - BLOCK_300)
        let e1 := kwh_b1 * rates.NONRES_B1
        let e2 := kwh_b2 * rates.NONRES_B2
        let energy := e1 + e2
        let service := services.nonResidential
        .ok (finishBill year category kwh energy service
          ([⟨"Energy charge block 1", e1⟩] ++
           (if kwh_b2 > 0 then [⟨"Energy charge block 2", e2⟩] else [])))
      else
        match sltRate rates category with
        | none => .error (.invalidInputError "Unsupported customer category.")
        | some rate =>
          let energy := kwh * rate
          let service := services.SLT
          .ok (finishBill year category kwh energy service
            [⟨"Energy charge", energy⟩])

-- ----------------------------
-- Reverse calculation (app.py lines 12-32)
-- ----------------------------

/-- The bracket-expansion `while` loop of `invert_bill_to_kwh` (app.py
lines 16-20): double `hi` while the bill at `hi` is below target, failing
once `hi` exceeds 1,000,000.  The loop doubles from 1.0 and the guard
fires no later than the 20th doubling, so 20 units of fuel make the
fuel-out branch unreachable; it is mapped to the same failure. -/
def expand_hi (year category : String) (target : ℚ) (hi : ℚ) :
    Nat → Except InvertError ℚ
  | 0 => .error (.searchBoundError "Unable to estimate kWh for this bill amount.")
  | fuel + 1 =>
    match calculate_bill year category hi with
    | .error e => .error (.calcError e)
    | .ok r =>
      if r.total < target then
        let hi2 := hi * 2
        if hi2 > 1000000 then
          .error (.searchBoundError "Unable to estimate kWh for this bill amount.")
        else expand_hi year category target hi2 fuel
      else .ok hi

/-- The bisection `for` loop of `invert_bill_to_kwh` (app.py lines 22-32):
up to `fuel` iterations of halving; on exhaustion the midpoint of the
final bracket is returned. -/
def bisect_kwh (year category : String) (target tol : ℚ) (lo hi : ℚ) :
    Nat → Except InvertError ℚ
  | 0 => .ok ((lo + hi) / 2)
  | fuel + 1 =>
    let mid := (lo + hi) / 2
    match calculate_bill year category mid with
    | .error e => .error (.calcError e)
    | .ok r =>
      let diff := r.total - target
      if |diff| ≤ tol then .ok mid
      else if diff < 0 then bisect_kwh year category target tol mid hi fuel
      else bisect_kwh year category target tol lo mid fuel

/-- Inversion `invert_bill_to_kwh(year, category, target_total, tol=0.01,
max_iter=60)` (app.py lines 12-32).  The defaults `tol = 0.01` and
`max_iter = 60` are passed explicitly by callers of this model. -/
def invert_bill_to_kwh (year category : String) (target_total : ℚ)
    (tol : ℚ) (max_iter : Nat) : Except InvertError ℚ :=
  if target_total ≤ 0 then .ok 0
  else
    match expand_hi year category target_total 1 20 with
    | .error e => .error e
    | .ok hi => bisect_kwh year category target_total tol 0 hi max_iter

-- ----------------------------
-- Supported inputs
-- ----------------------------

/-- The two supported tariff years. -/
def supportedYears : List String := ["2025", "2026"]

/-- The seven recognized customer categories (app.py's selector and the
calculator's dispatch). -/
def categories : List String :=
  ["Residential", "Non-Residential", "SLT-LV", "SLT-MV1/HV", "SLT-MV2",
   "SLT-HV", "SLT-HV MINES"]

-- ----------------------------
-- Derived closed forms used by the proofs
-- ----------------------------

/-- The two-block energy charge shared by the Residential (above
lifeline) and Non-Residential branches: block 1 is `min kwh 300`, block 2
is `max 0 (kwh - 300)`. -/
def blockEnergy (b1 b2 k : ℚ) : ℚ := min k 300 * b1 + max 0 (k - 300) * b2

/-- The closing total computed by `finishBill`:
`energy + service + levy + tax` with `levy = LEVY_RATE * energy`. -/
def totalOf (energy service tax : ℚ) : ℚ :=
  energy + service + LEVY_RATE * energy + tax

/-- The total of a Residential bill as a function of consumption. -/
def resTotal (t : Tariff) (k : ℚ) : ℚ :=
  if k ≤ 30 then
    totalOf (k * t.rates.RES_LIFELINE) t.service.residentialLifeline 0
  else
    totalOf (blockEnergy t.rates.RES_B1 t.rates.RES_B2 k)
      t.service.residentialOther 0

/-- The total of a Non-Residential bill as a function of consumption. -/
def nonresTotal (t : Tariff) (k : ℚ) : ℚ :=
  totalOf (blockEnergy t.rates.NONRES_B1 t.rates.NONRES_B2 k)
    t.service.nonResidential
    (TAX_RATE * (blockEnergy t.rates.NONRES_B1 t.rates.NONRES_B2 k +
      t.service.nonResidential))

/-- The total of a special-load-tariff bill at unit rate `rt`. -/
def sltTotal (t : Tariff) (rt k : ℚ) : ℚ :=
  totalOf (k * rt) t.service.SLT (TAX_RATE * (k * rt + t.service.SLT))

/-- The bill total of any recognized category, as a function of
consumption (0 for unrecognized categories, which never succeed). -/
def catTotal (t : Tariff) (c : String) (k : ℚ) : ℚ :=
  if c = "Residential" then resTotal t k
  else if c = "Non-Residential" then nonresTotal t k
  else
    match sltRate t.rates c with
    | some rt => sltTotal t rt k
    | none => 0

/-- The numeric facts about a tariff year's data that the monotonicity,
Lipschitz and boundary arguments rely on: every unit rate is positive and
at most 3.2 (so every branch's total has slope at most 4), the lifeline
rate is below the block-1 rate, and service charges are non-negative with
the lifeline charge below the other residential charge. -/
def TariffOK (t : Tariff) : Prop :=
  (0 < t.rates.RES_LIFELINE ∧ t.rates.RES_LIFELINE ≤ 3.2) ∧
  (0 < t.rates.RES_B1 ∧ t.rates.RES_B1 ≤ 3.2) ∧
  (0 < t.rates.RES_B2 ∧ t.rates.RES_B2 ≤ 3.2) ∧
  (0 < t.rates.NONRES_B1 ∧ t.rates.NONRES_B1 ≤ 3.2) ∧
  (0 < t.rates.NONRES_B2 ∧ t.rates.NONRES_B2 ≤ 3.2) ∧
  (0 < t.rates.SLT_LV ∧ t.rates.SLT_LV ≤ 3.2) ∧
  (0 < t.rates.SLT_MV1 ∧ t.rates.SLT_MV1 ≤ 3.2) ∧
  (0 < t.rates.SLT_MV2 ∧ t.rates.SLT_MV2 ≤ 3.2) ∧
  (0 < t.rates.SLT_HV ∧ t.rates.SLT_HV ≤ 3.2) ∧
  t.rates.RES_LIFELINE < t.rates.RES_B1 ∧
  0 ≤ t.service.residentialLifeline ∧
  t.service.residentialLifeline ≤ t.service.residentialOther ∧
  0 ≤ t.service.nonResidential ∧
  0 ≤ t.service.SLT ∧
  t.rates.SLT_MV1 = t.rates.SLT_HV

-- ----------------------------
-- Theorems
-- ----------------------------

theorem finishBill_total (y c : String) (k e s : ℚ) (lines : List BillLine) :
    (finishBill y c k e s lines).total =
      e + s + LEVY_RATE * e +
        (if is_taxable c then TAX_RATE * (e + s) else 0) := rfl

theorem finishBill_energy (y c : String) (k e s : ℚ) (lines : List BillLine) :
    (finishBill y c k e s lines).energy_charge = e := rfl

theorem finishBill_service (y c : String) (k e s : ℚ) (lines : List BillLine) :
    (finishBill y c k e s lines).service_charge = s := rfl

theorem finishBill_levy (y c : String) (k e s : ℚ) (lines : List BillLine) :
    (finishBill y c k e s lines).levy = LEVY_RATE * e := rfl

theorem finishBill_tax (y c : String) (k e s : ℚ) (lines : List BillLine) :
    (finishBill y c k e s lines).tax =
      (if is_taxable c then TAX_RATE * (e + s) else 0) := rfl

theorem finishBill_breakdown (y c : String) (k e s : ℚ) (lines : List BillLine) :
    (finishBill y c k e s lines).breakdown =
      lines ++
        [⟨"Service charge", s⟩, ⟨"Levies", LEVY_RATE * e⟩,
         ⟨"Taxes", if is_taxable c then TAX_RATE * (e + s) else 0⟩,
         ⟨"Total payable", e + s + LEVY_RATE * e +
            (if is_taxable c then TAX_RATE * (e + s) else 0)⟩] := rfl

theorem tariffOK_2025 : TariffOK tariff2025 := by
  norm_num [TariffOK, tariff2025]

theorem tariffOK_2026 : TariffOK tariff2026 := by
  norm_num [TariffOK, tariff2026]

theorem tariff_of_year (y : String) (hy : y ∈ supportedYears) :
    ∃ t, TARIFFS y = some t ∧ TariffOK t := by
  simp only [supportedYears, List.mem_cons, List.mem_singleton,
    List.not_mem_nil, or_false] at hy
  rcases hy with rfl | rfl
  · exact ⟨tariff2025, by simp [TARIFFS], tariffOK_2025⟩
  · exact ⟨tariff2026, by simp [TARIFFS], tariffOK_2026⟩

theorem mem_categories (c : String) (hc : c ∈ categories) :
    c = "Residential" ∨ c = "Non-Residential" ∨ c = "SLT-LV" ∨
    c = "SLT-MV1/HV" ∨ c = "SLT-MV2" ∨ c = "SLT-HV" ∨
    c = "SLT-HV MINES" := by
  simpa [categories] using hc

theorem calc_res_lifeline (y : String) (t : Tariff) (ht : TARIFFS y = some t)
    (k : ℚ) (hk : 0 ≤ k) (h30 : k ≤ 30) :
    calculate_bill y "Residential" k =
      .ok (finishBill y "Residential" k (k * t.rates.RES_LIFELINE)
        t.service.residentialLifeline
        [⟨"Energy charge (Lifeline)", k * t.rates.RES_LIFELINE⟩]) := by
  unfold calculate_bill
  rw [ht]
  simp [not_lt.mpr hk, RES_LIFELINE_MAX, h30]

theorem calc_res_blocks (y : String) (t : Tariff) (ht : TARIFFS y = some t)
    (k : ℚ) (hk : 0 ≤ k) (h30 : ¬ (k ≤ 30)) :
    calculate_bill y "Residential" k =
      .ok (finishBill y "Residential" k
        (min k 300 * t.rates.RES_B1 + max 0 (k - 300) * t.rates.RES_B2)
        t.service.residentialOther
        ([⟨"Energy charge block 1", min k 300 * t.rates.RES_B1⟩] ++
         (if max 0 (k - 300) > 0 then
            [⟨"Energy charge block 2", max 0 (k - 300) * t.rates.RES_B2⟩]
          else []))) := by
  unfold calculate_bill
  rw [ht]
  simp [not_lt.mpr hk, RES_LIFELINE_MAX, BLOCK_300, h30]

theorem calc_nonres (y : String) (t : Tariff) (ht : TARIFFS y = some t)
    (k : ℚ) (hk : 0 ≤ k) :
    calculate_bill y "Non-Residential" k =
      .ok (finishBill y "Non-Residential" k
        (min k 300 * t.rates.NONRES_B1 + max 0 (k - 300) * t.rates.NONRES_B2)
        t.service.nonResidential
        ([⟨"Energy charge block 1", min k 300 * t.rates.NONRES_B1⟩] ++
         (if max 0 (k - 300) > 0 then
            [⟨"Energy charge block 2", max 0 (k - 300) * t.rates.NONRES_B2⟩]
          else []))) := by
  unfold calculate_bill
  rw [ht]
  simp [not_lt.mpr hk, BLOCK_300]

theorem calc_slt (y : String) (t : Tariff) (ht : TARIFFS y = some t)
    (c : String) (hc1 : c ≠ "Residential") (hc2 : c ≠ "Non-Residential")
    (rt : ℚ) (hrt : sltRate t.rates c = some rt)
    (k : ℚ) (hk : 0 ≤ k) :
    calculate_bill y c k =
      .ok (finishBill y c k (k * rt) t.service.SLT
        [⟨"Energy charge", k * rt⟩]) := by
  unfold calculate_bill
  rw [ht]
  simp [not_lt.mpr hk, hc1, hc2, hrt]

theorem is_taxable_vals :
    is_taxable "Residential" = false ∧
    is_taxable "Non-Residential" = true ∧
    is_taxable "SLT-LV" = true ∧
    is_taxable "SLT-MV1/HV" = true ∧
    is_taxable "SLT-MV2" = true ∧
    is_taxable "SLT-HV" = true ∧
    is_taxable "SLT-HV MINES" = true := by decide

theorem sltRate_vals (rates : Rates) :
    sltRate rates "SLT-LV" = some rates.SLT_LV ∧
    sltRate rates "SLT-MV1/HV" = some rates.SLT_MV1 ∧
    sltRate rates "SLT-MV2" = some rates.SLT_MV2 ∧
    sltRate rates "SLT-HV" = some rates.SLT_HV ∧
    sltRate rates "SLT-HV MINES" = some rates.SLT_HV := by
  refine ⟨?_, ?_, ?_, ?_, ?_⟩ <;> simp [sltRate]

theorem calc_catTotal (y : String) (t : Tariff) (ht : TARIFFS y = some t)
    (c : String) (hc : c ∈ categories) (k : ℚ) (hk : 0 ≤ k) :
    ∃ r, calculate_bill y c k = .ok r ∧ r.total = catTotal t c k := by
  rcases mem_categories c hc with rfl | rfl | rfl | rfl | rfl | rfl | rfl
  · by_cases h30 : k ≤ 30
    · refine ⟨_, calc_res_lifeline y t ht k hk h30, ?_⟩
      rw [finishBill_total]
      simp [catTotal, resTotal, totalOf, h30, is_taxable_vals.1]
    · refine ⟨_, calc_res_blocks y t ht k hk h30, ?_⟩
      rw [finishBill_total]
      simp [catTotal, resTotal, totalOf, blockEnergy, h30, is_taxable_vals.1]
  · refine ⟨_, calc_nonres y t ht k hk, ?_⟩
    rw [finishBill_total]
    simp [catTotal, nonresTotal, totalOf, blockEnergy, is_taxable_vals.2.1]
  · refine ⟨_, calc_slt y t ht _ (by decide) (by decide) _ (sltRate_vals t.rates).1 k hk, ?_⟩
    rw [finishBill_total]
    simp [catTotal, sltTotal, totalOf, (sltRate_vals t.rates).1, is_taxable_vals.2.2.1]
  · refine ⟨_, calc_slt y t ht _ (by decide) (by decide) _ (sltRate_vals t.rates).2.1 k hk, ?_⟩
    rw [finishBill_total]
    simp [catTotal, sltTotal, totalOf, (sltRate_vals t.rates).2.1, is_taxable_vals.2.2.2.1]
  · refine ⟨_, calc_slt y t ht _ (by decide) (by decide) _ (sltRate_vals t.rates).2.2.1 k hk, ?_⟩
    rw [finishBill_total]
    simp [catTotal, sltTotal, totalOf, (sltRate_vals t.rates).2.2.1, is_taxable_vals.2.2.2.2.1]
  · refine ⟨_, calc_slt y t ht _ (by decide) (by decide) _ (sltRate_vals t.rates).2.2.2.1 k hk, ?_⟩
    rw [finishBill_total]
    simp [catTotal, sltTotal, totalOf, (sltRate_vals t.rates).2.2.2.1, is_taxable_vals.2.2.2.2.2.1]
  · refine ⟨_, calc_slt y t ht _ (by decide) (by decide) _ (sltRate_vals t.rates).2.2.2.2 k hk, ?_⟩
    rw [finishBill_total]
    simp [catTotal, sltTotal, totalOf, (sltRate_vals t.rates).2.2.2.2, is_taxable_vals.2.2.2.2.2.2]


theorem min_add_max_eq (k : ℚ) : min k 300 + max 0 (k - 300) = k := by
  rcases le_total k 300 with h | h
  · rw [min_eq_left h, max_eq_left (by linarith)]; ring
  · rw [min_eq_right h, max_eq_right (by linarith)]; ring

theorem blockEnergy_mono_lip (b1 b2 L : ℚ) (hb1 : 0 ≤ b1) (hb2 : 0 ≤ b2)
    (hL1 : b1 ≤ L) (hL2 : b2 ≤ L) (k1 k2 : ℚ) (h : k1 ≤ k2) :
    blockEnergy b1 b2 k1 ≤ blockEnergy b1 b2 k2 ∧
    blockEnergy b1 b2 k2 - blockEnergy b1 b2 k1 ≤ L * (k2 - k1) := by
  have hmin : min k1 300 ≤ min k2 300 := min_le_min h le_rfl
  have hmax : max 0 (k1 - 300) ≤ max 0 (k2 - 300) :=
    max_le_max le_rfl (by linarith)
  have hsum1 := min_add_max_eq k1
  have hsum2 := min_add_max_eq k2
  unfold blockEnergy
  constructor
  · nlinarith [mul_le_mul_of_nonneg_right hmin hb1,
      mul_le_mul_of_nonneg_right hmax hb2]
  · nlinarith [mul_le_mul_of_nonneg_right (sub_nonneg.mpr hmin) (le_trans hb1 hL1),
      mul_le_mul_of_nonneg_right (sub_nonneg.mpr hmax) (le_trans hb2 hL2),
      mul_le_mul_of_nonneg_left hL1 (sub_nonneg.mpr hmin),
      mul_le_mul_of_nonneg_left hL2 (sub_nonneg.mpr hmax)]

theorem blockEnergy_strictMono (b1 b2 : ℚ) (hb1 : 0 < b1) (hb2 : 0 < b2)
    (k1 k2 : ℚ) (h : k1 < k2) :
    blockEnergy b1 b2 k1 < blockEnergy b1 b2 k2 := by
  have hmin : min k1 300 ≤ min k2 300 := min_le_min h.le le_rfl
  have hmax : max 0 (k1 - 300) ≤ max 0 (k2 - 300) :=
    max_le_max le_rfl (by linarith)
  have hsum1 := min_add_max_eq k1
  have hsum2 := min_add_max_eq k2
  unfold blockEnergy
  by_cases hm : min k1 300 < min k2 300
  · nlinarith [mul_le_mul_of_nonneg_right hmax hb2.le,
      mul_lt_mul_of_pos_right hm hb1]
  · have heq : min k2 300 = min k1 300 := le_antisymm (not_lt.mp hm) hmin
    have hmax' : max 0 (k1 - 300) < max 0 (k2 - 300) := by
      rw [heq] at hsum2; linarith
    nlinarith [mul_lt_mul_of_pos_right hmax' hb2]

theorem blockEnergy_at_30 (b1 b2 : ℚ) : blockEnergy b1 b2 30 = 30 * b1 := by
  unfold blockEnergy
  rw [min_eq_left (by norm_num), max_eq_left (by norm_num)]
  ring



theorem sltTotal_strictMono (t : Tariff) (rt : ℚ) (hrt : 0 < rt)
    (k1 k2 : ℚ) (h : k1 < k2) : sltTotal t rt k1 < sltTotal t rt k2 := by
  unfold sltTotal totalOf LEVY_RATE TAX_RATE
  nlinarith [mul_lt_mul_of_pos_right h hrt]

theorem sltTotal_lip (t : Tariff) (rt : ℚ) (hrt : 0 ≤ rt) (hrt2 : rt ≤ 3.2)
    (k1 k2 : ℚ) (h : k1 ≤ k2) :
    sltTotal t rt k2 - sltTotal t rt k1 ≤ 4 * (k2 - k1) := by
  unfold sltTotal totalOf LEVY_RATE TAX_RATE
  nlinarith [mul_le_mul_of_nonneg_left hrt2 (sub_nonneg.mpr h),
    mul_le_mul_of_nonneg_right h hrt]

theorem nonresTotal_strictMono (t : Tariff) (hok : TariffOK t)
    (k1 k2 : ℚ) (h : k1 < k2) : nonresTotal t k1 < nonresTotal t k2 := by
  obtain ⟨_, _, _, ⟨hb1, _⟩, ⟨hb2, _⟩, _⟩ := hok
  have := blockEnergy_strictMono _ _ hb1 hb2 k1 k2 h
  unfold nonresTotal totalOf LEVY_RATE TAX_RATE
  linarith

theorem nonresTotal_lip (t : Tariff) (hok : TariffOK t)
    (k1 k2 : ℚ) (h : k1 ≤ k2) :
    nonresTotal t k2 - nonresTotal t k1 ≤ 4 * (k2 - k1) := by
  obtain ⟨_, _, _, ⟨hb1, hb12⟩, ⟨hb2, hb22⟩, _⟩ := hok
  have := blockEnergy_mono_lip _ _ (3.2 : ℚ) hb1.le hb2.le hb12 hb22 k1 k2 h
  unfold nonresTotal totalOf LEVY_RATE TAX_RATE
  obtain ⟨h1, h2⟩ := this
  nlinarith

theorem resTotal_strictMono (t : Tariff) (hok : TariffOK t)
    (k1 k2 : ℚ) (h0 : 0 ≤ k1) (h : k1 < k2) :
    resTotal t k1 < resTotal t k2 := by
  obtain ⟨⟨hrl, hrl2⟩, ⟨hb1, hb12⟩, ⟨hb2, hb22⟩, _, _, _, _, _, _,
    hrlb1, hsl, hslso, _⟩ := hok
  unfold resTotal totalOf LEVY_RATE
  by_cases h1 : k1 ≤ 30 <;> by_cases h2 : k2 ≤ 30
  · -- both lifeline
    simp only [if_pos h1, if_pos h2]
    nlinarith [mul_lt_mul_of_pos_right h hrl]
  · -- lifeline to blocks
    simp only [if_pos h1, if_neg h2]
    have e1 : k1 * t.rates.RES_LIFELINE ≤ 30 * t.rates.RES_LIFELINE :=
      mul_le_mul_of_nonneg_right h1 hrl.le
    have e2 : 30 * t.rates.RES_LIFELINE < 30 * t.rates.RES_B1 := by
      nlinarith
    have e3 : blockEnergy t.rates.RES_B1 t.rates.RES_B2 30 ≤
        blockEnergy t.rates.RES_B1 t.rates.RES_B2 k2 :=
      (blockEnergy_mono_lip _ _ (3.2 : ℚ) hb1.le hb2.le hb12 hb22 30 k2
        (by linarith)).1
    rw [blockEnergy_at_30] at e3
    linarith
  · -- k2 ≤ 30 < k1 impossible
    exact absurd (lt_of_lt_of_le h h2) (not_lt.mpr (not_le.mp h1).le)
  · -- both blocks
    simp only [if_neg h1, if_neg h2]
    have := blockEnergy_strictMono _ _ hb1 hb2 k1 k2 h
    linarith

theorem resTotal_lip1 (t : Tariff) (hok : TariffOK t)
    (k1 k2 : ℚ) (h0 : 0 ≤ k1) (h : k1 ≤ k2) (h30 : k2 ≤ 30) :
    resTotal t k2 - resTotal t k1 ≤ 4 * (k2 - k1) := by
  obtain ⟨⟨hrl, hrl2⟩, _⟩ := hok
  unfold resTotal totalOf LEVY_RATE
  rw [if_pos (le_trans h h30), if_pos h30]
  nlinarith [mul_le_mul_of_nonneg_left hrl2 (sub_nonneg.mpr h),
    mul_le_mul_of_nonneg_right h hrl.le]

theorem resTotal_lip2 (t : Tariff) (hok : TariffOK t)
    (k1 k2 : ℚ) (h30 : 30 < k1) (h : k1 ≤ k2) :
    resTotal t k2 - resTotal t k1 ≤ 4 * (k2 - k1) := by
  obtain ⟨_, ⟨hb1, hb12⟩, ⟨hb2, hb22⟩, _⟩ := hok
  unfold resTotal totalOf LEVY_RATE
  rw [if_neg (not_le.mpr h30), if_neg (not_le.mpr (lt_of_lt_of_le h30 h))]
  have := blockEnergy_mono_lip _ _ (3.2 : ℚ) hb1.le hb2.le hb12 hb22 k1 k2 h
  obtain ⟨h1, h2⟩ := this
  nlinarith



theorem catTotal_strictMono (t : Tariff) (hok : TariffOK t) (c : String)
    (hc : c ∈ categories) (k1 k2 : ℚ) (h0 : 0 ≤ k1) (h : k1 < k2) :
    catTotal t c k1 < catTotal t c k2 := by
  have hq := hok
  obtain ⟨_, _, _, _, _, ⟨hlv, _⟩, ⟨hmv1, _⟩, ⟨hmv2, _⟩, ⟨hhv, _⟩, _⟩ := hq
  rcases mem_categories c hc with rfl | rfl | rfl | rfl | rfl | rfl | rfl
  · simpa [catTotal] using resTotal_strictMono t hok k1 k2 h0 h
  · simpa [catTotal] using nonresTotal_strictMono t hok k1 k2 h
  · simpa [catTotal, (sltRate_vals t.rates).1] using
      sltTotal_strictMono t _ hlv k1 k2 h
  · simpa [catTotal, (sltRate_vals t.rates).2.1] using
      sltTotal_strictMono t _ hmv1 k1 k2 h
  · simpa [catTotal, (sltRate_vals t.rates).2.2.1] using
      sltTotal_strictMono t _ hmv2 k1 k2 h
  · simpa [catTotal, (sltRate_vals t.rates).2.2.2.1] using
      sltTotal_strictMono t _ hhv k1 k2 h
  · simpa [catTotal, (sltRate_vals t.rates).2.2.2.2] using
      sltTotal_strictMono t _ hhv k1 k2 h

theorem catTotal_mono (t : Tariff) (hok : TariffOK t) (c : String)
    (hc : c ∈ categories) (k1 k2 : ℚ) (h0 : 0 ≤ k1) (h : k1 ≤ k2) :
    catTotal t c k1 ≤ catTotal t c k2 := by
  rcases eq_or_lt_of_le h with rfl | hlt
  · exact le_rfl
  · exact (catTotal_strictMono t hok c hc k1 k2 h0 hlt).le

theorem catTotal_lip1 (t : Tariff) (hok : TariffOK t) (c : String)
    (hc : c ∈ categories) (k1 k2 : ℚ) (h0 : 0 ≤ k1) (h : k1 ≤ k2)
    (h30 : k2 ≤ 30) :
    catTotal t c k2 - catTotal t c k1 ≤ 4 * (k2 - k1) := by
  have hq := hok
  obtain ⟨_, _, _, _, _, ⟨hlv, hlv2⟩, ⟨hmv1, hmv12⟩, ⟨hmv2, hmv22⟩,
    ⟨hhv, hhv2⟩, _⟩ := hq
  rcases mem_categories c hc with rfl | rfl | rfl | rfl | rfl | rfl | rfl
  · simpa [catTotal] using resTotal_lip1 t hok k1 k2 h0 h h30
  · simpa [catTotal] using nonresTotal_lip t hok k1 k2 h
  · simpa [catTotal, (sltRate_vals t.rates).1] using
      sltTotal_lip t _ hlv.le hlv2 k1 k2 h
  · simpa [catTotal, (sltRate_vals t.rates).2.1] using
      sltTotal_lip t _ hmv1.le hmv12 k1 k2 h
  · simpa [catTotal, (sltRate_vals t.rates).2.2.1] using
      sltTotal_lip t _ hmv2.le hmv22 k1 k2 h
  · simpa [catTotal, (sltRate_vals t.rates).2.2.2.1] using
      sltTotal_lip t _ hhv.le hhv2 k1 k2 h
  · simpa [catTotal, (sltRate_vals t.rates).2.2.2.2] using
      sltTotal_lip t _ hhv.le hhv2 k1 k2 h

theorem catTotal_lip2 (t : Tariff) (hok : TariffOK t) (c : String)
    (hc : c ∈ categories) (k1 k2 : ℚ) (h30 : 30 < k1) (h : k1 ≤ k2) :
    catTotal t c k2 - catTotal t c k1 ≤ 4 * (k2 - k1) := by
  have hq := hok
  obtain ⟨_, _, _, _, _, ⟨hlv, hlv2⟩, ⟨hmv1, hmv12⟩, ⟨hmv2, hmv22⟩,
    ⟨hhv, hhv2⟩, _⟩ := hq
  rcases mem_categories c hc with rfl | rfl | rfl | rfl | rfl | rfl | rfl
  · simpa [catTotal] using resTotal_lip2 t hok k1 k2 h30 h
  · simpa [catTotal] using nonresTotal_lip t hok k1 k2 h
  · simpa [catTotal, (sltRate_vals t.rates).1] using
      sltTotal_lip t _ hlv.le hlv2 k1 k2 h
  · simpa [catTotal, (sltRate_vals t.rates).2.1] using
      sltTotal_lip t _ hmv1.le hmv12 k1 k2 h
  · simpa [catTotal, (sltRate_vals t.rates).2.2.1] using
      sltTotal_lip t _ hmv2.le hmv22 k1 k2 h
  · simpa [catTotal, (sltRate_vals t.rates).2.2.2.1] using
      sltTotal_lip t _ hhv.le hhv2 k1 k2 h
  · simpa [catTotal, (sltRate_vals t.rates).2.2.2.2] using
      sltTotal_lip t _ hhv.le hhv2 k1 k2 h

/-- C6: for every fixed supported year and recognized category, the
`total` field of `calculate_bill` is monotonically non-decreasing in
consumption. -/
theorem calculate_bill_total_monotone (y c : String)
    (hy : y ∈ supportedYears) (hc : c ∈ categories)
    (k1 k2 : ℚ) (hk1 : 0 ≤ k1) (h12 : k1 ≤ k2) (r1 r2 : BillResult)
    (h1 : calculate_bill y c k1 = Except.ok r1)
    (h2 : calculate_bill y c k2 = Except.ok r2) :
    r1.total ≤ r2.total := by
  obtain ⟨t, ht, hok⟩ := tariff_of_year y hy
  obtain ⟨r1', hr1, ht1⟩ := calc_catTotal y t ht c hc k1 hk1
  obtain ⟨r2', hr2, ht2⟩ := calc_catTotal y t ht c hc k2 (le_trans hk1 h12)
  rw [h1] at hr1
  rw [h2] at hr2
  injection hr1 with e1
  injection hr2 with e2
  subst e1
  subst e2
  rw [ht1, ht2]
  exact catTotal_mono t hok c hc k1 k2 hk1 h12



theorem calc_ok_finish (y : String) (t : Tariff) (ht : TARIFFS y = some t)
    (c : String) (hc : c ∈ categories) (k : ℚ) (hk : 0 ≤ k) :
    ∃ e s lines, calculate_bill y c k = .ok (finishBill y c k e s lines) := by
  rcases mem_categories c hc with rfl | rfl | rfl | rfl | rfl | rfl | rfl
  · by_cases h30 : k ≤ 30
    · exact ⟨_, _, _, calc_res_lifeline y t ht k hk h30⟩
    · exact ⟨_, _, _, calc_res_blocks y t ht k hk h30⟩
  · exact ⟨_, _, _, calc_nonres y t ht k hk⟩
  · exact ⟨_, _, _, calc_slt y t ht _ (by decide) (by decide) _
      (sltRate_vals t.rates).1 k hk⟩
  · exact ⟨_, _, _, calc_slt y t ht _ (by decide) (by decide) _
      (sltRate_vals t.rates).2.1 k hk⟩
  · exact ⟨_, _, _, calc_slt y t ht _ (by decide) (by decide) _
      (sltRate_vals t.rates).2.2.1 k hk⟩
  · exact ⟨_, _, _, calc_slt y t ht _ (by decide) (by decide) _
      (sltRate_vals t.rates).2.2.2.1 k hk⟩
  · exact ⟨_, _, _, calc_slt y t ht _ (by decide) (by decide) _
      (sltRate_vals t.rates).2.2.2.2 k hk⟩

theorem finishBill_total_decomp (y c : String) (k e s : ℚ)
    (lines : List BillLine) :
    (finishBill y c k e s lines).total =
      (finishBill y c k e s lines).energy_charge +
      (finishBill y c k e s lines).service_charge +
      (finishBill y c k e s lines).levy +
      (finishBill y c k e s lines).tax := rfl

theorem finishBill_getLast (y c : String) (k e s : ℚ)
    (lines : List BillLine) :
    (finishBill y c k e s lines).breakdown.getLast? =
      some ⟨"Total payable", (finishBill y c k e s lines).total⟩ := by
  rw [finishBill_breakdown, finishBill_total]
  simp

/-- C1: for every supported year, recognized category and `kwh ≥ 0`,
`calculate_bill` succeeds, its `total` equals
`energy_charge + service_charge + levy + tax` exactly, and the last
breakdown line is `"Total payable"` with amount `total`. -/
theorem calculate_bill_total_invariant (y c : String)
    (hy : y ∈ supportedYears) (hc : c ∈ categories) (k : ℚ) (hk : 0 ≤ k) :
    ∃ r, calculate_bill y c k = Except.ok r ∧
      r.total = r.energy_charge + r.service_charge + r.levy + r.tax ∧
      r.breakdown.getLast? = some ⟨"Total payable", r.total⟩ := by
  obtain ⟨t, ht, _⟩ := tariff_of_year y hy
  obtain ⟨e, s, lines, hcb⟩ := calc_ok_finish y t ht c hc k hk
  exact ⟨_, hcb, finishBill_total_decomp y c k e s lines,
    finishBill_getLast y c k e s lines⟩

/-- C2: for every supported year, recognized category and `kwh ≥ 0`,
the levy is 5% of the energy charge, and the tax is 0 when the category
name starts with `"Residential"` and 20% of energy + service otherwise. -/
theorem calculate_bill_levy_tax (y c : String)
    (hy : y ∈ supportedYears) (hc : c ∈ categories) (k : ℚ) (hk : 0 ≤ k) :
    ∃ r, calculate_bill y c k = Except.ok r ∧
      r.levy = 0.05 * r.energy_charge ∧
      (("Residential".toList).isPrefixOf c.toList = true → r.tax = 0) ∧
      (("Residential".toList).isPrefixOf c.toList = false →
        r.tax = 0.20 * (r.energy_charge + r.service_charge)) := by
  obtain ⟨t, ht, _⟩ := tariff_of_year y hy
  obtain ⟨e, s, lines, hcb⟩ := calc_ok_finish y t ht c hc k hk
  refine ⟨_, hcb, rfl, fun hpre => ?_, fun hpre => ?_⟩
  · have htax : is_taxable c = false := by unfold is_taxable; rw [hpre]; rfl
    rw [finishBill_tax]
    simp [htax]
  · have htax : is_taxable c = true := by unfold is_taxable; rw [hpre]; rfl
    rw [finishBill_tax, finishBill_energy, finishBill_service]
    simp [htax, TAX_RATE]



theorem max_pos_iff_300 (k : ℚ) : (0 < max 0 (k - 300)) ↔ 300 < k := by
  rw [lt_max_iff]
  constructor
  · rintro (h | h) <;> [exact absurd h (lt_irrefl 0); linarith]
  · intro h; right; linarith

/-- C3: Residential tiering: at or below 30 kWh the whole consumption is
billed at the lifeline rate with the lifeline service charge and a single
energy line; above 30 kWh block 1 = min(kwh, 300) at the block-1 rate and
block 2 = max(0, kwh - 300) at the block-2 rate with the
residential-other service charge. -/
theorem residential_tiering (y : String) (hy : y ∈ supportedYears)
    (k : ℚ) (hk : 0 ≤ k) :
    ∃ t, TARIFFS y = some t ∧
      ∃ r, calculate_bill y "Residential" k = Except.ok r ∧
        (k ≤ 30 →
          r.energy_charge = k * t.rates.RES_LIFELINE ∧
          r.service_charge = t.service.residentialLifeline ∧
          r.breakdown =
            [⟨"Energy charge (Lifeline)", k * t.rates.RES_LIFELINE⟩,
             ⟨"Service charge", r.service_charge⟩, ⟨"Levies", r.levy⟩,
             ⟨"Taxes", r.tax⟩, ⟨"Total payable", r.total⟩]) ∧
        (30 < k →
          r.energy_charge =
            min k 300 * t.rates.RES_B1 + max 0 (k - 300) * t.rates.RES_B2 ∧
          r.service_charge = t.service.residentialOther) := by
  obtain ⟨t, ht, _⟩ := tariff_of_year y hy
  refine ⟨t, ht, ?_⟩
  by_cases h30 : k ≤ 30
  · refine ⟨_, calc_res_lifeline y t ht k hk h30, fun _ => ?_, fun hgt => ?_⟩
    · exact ⟨rfl, rfl, rfl⟩
    · exact absurd hgt (not_lt.mpr h30)
  · refine ⟨_, calc_res_blocks y t ht k hk h30, fun hle => ?_, fun _ => ?_⟩
    · exact absurd hle h30
    · exact ⟨rfl, rfl⟩

/-- C4: the breakdown always ends with the lines "Service charge",
"Levies", "Taxes", "Total payable" in that order (levy and tax lines are
present even when 0), and in the two-block shapes (Non-Residential, or
Residential above the lifeline) the "Energy charge block 2" line is
present exactly when block-2 consumption is positive, i.e. when
`kwh > 300`. -/
theorem breakdown_structure (y c : String)
    (hy : y ∈ supportedYears) (hc : c ∈ categories) (k : ℚ) (hk : 0 ≤ k) :
    ∃ r, calculate_bill y c k = Except.ok r ∧
      (∃ pre, r.breakdown = pre ++
        [⟨"Service charge", r.service_charge⟩, ⟨"Levies", r.levy⟩,
         ⟨"Taxes", r.tax⟩, ⟨"Total payable", r.total⟩]) ∧
      ((c = "Non-Residential" ∨ (c = "Residential" ∧ 30 < k)) →
        ((∃ a, (⟨"Energy charge block 2", a⟩ : BillLine) ∈ r.breakdown) ↔
          300 < k)) := by
  obtain ⟨t, ht, _⟩ := tariff_of_year y hy
  have hblock : ∀ (e1v e2v sv : ℚ) (lv tv totv : ℚ),
      ((∃ a, (⟨"Energy charge block 2", a⟩ : BillLine) ∈
        ([⟨"Energy charge block 1", e1v⟩] ++
         (if max 0 (k - 300) > 0 then
            [(⟨"Energy charge block 2", e2v⟩ : BillLine)] else []) ++
         [⟨"Service charge", sv⟩, ⟨"Levies", lv⟩, ⟨"Taxes", tv⟩,
          ⟨"Total payable", totv⟩])) ↔ 300 < k) := by
    intro e1v e2v sv lv tv totv
    by_cases hb : 300 < k
    · rw [if_pos]
      · simp [hb]
      · exact (max_pos_iff_300 k).mpr hb
    · rw [if_neg]
      · simp [hb]
      · exact fun hmax => hb ((max_pos_iff_300 k).mp hmax)
  rcases mem_categories c hc with rfl | rfl | rfl | rfl | rfl | rfl | rfl
  · by_cases h30 : k ≤ 30
    · refine ⟨_, calc_res_lifeline y t ht k hk h30, ⟨_, rfl⟩, fun hcase => ?_⟩
      rcases hcase with hcase | hcase
      · exact absurd hcase (by decide)
      · exact absurd hcase.2 (not_lt.mpr h30)
    · refine ⟨_, calc_res_blocks y t ht k hk h30, ⟨_, rfl⟩, fun _ => ?_⟩
      rw [finishBill_breakdown]
      simpa using hblock _ _ _ _ _ _
  · refine ⟨_, calc_nonres y t ht k hk, ⟨_, rfl⟩, fun _ => ?_⟩
    rw [finishBill_breakdown]
    simpa using hblock _ _ _ _ _ _
  · refine ⟨_, calc_slt y t ht _ (by decide) (by decide) _
      (sltRate_vals t.rates).1 k hk, ⟨_, rfl⟩, fun hcase => ?_⟩
    rcases hcase with hcase | hcase
    · exact absurd hcase (by decide)
    · exact absurd hcase.1 (by decide)
  · refine ⟨_, calc_slt y t ht _ (by decide) (by decide) _
      (sltRate_vals t.rates).2.1 k hk, ⟨_, rfl⟩, fun hcase => ?_⟩
    rcases hcase with hcase | hcase
    · exact absurd hcase (by decide)
    · exact absurd hcase.1 (by decide)
  · refine ⟨_, calc_slt y t ht _ (by decide) (by decide) _
      (sltRate_vals t.rates).2.2.1 k hk, ⟨_, rfl⟩, fun hcase => ?_⟩
    rcases hcase with hcase | hcase
    · exact absurd hcase (by decide)
    · exact absurd hcase.1 (by decide)
  · refine ⟨_, calc_slt y t ht _ (by decide) (by decide) _
      (sltRate_vals t.rates).2.2.2.1 k hk, ⟨_, rfl⟩, fun hcase => ?_⟩
    rcases hcase with hcase | hcase
    · exact absurd hcase (by decide)
    · exact absurd hcase.1 (by decide)
  · refine ⟨_, calc_slt y t ht _ (by decide) (by decide) _
      (sltRate_vals t.rates).2.2.2.2 k hk, ⟨_, rfl⟩, fun hcase => ?_⟩
    rcases hcase with hcase | hcase
    · exact absurd hcase (by decide)
    · exact absurd hcase.1 (by decide)



/-- C5: the failure order of `calculate_bill`: unsupported years fail
with `ConfigurationError` regardless of the other arguments; then a
negative consumption fails with `InvalidInputError` "kWh cannot be
negative."; then an unrecognized category fails with `InvalidInputError`
"Unsupported customer category."; otherwise a `BillResult` is returned. -/
theorem calculate_bill_errors :
    (∀ y, y ∉ supportedYears → ∀ c (k : ℚ),
      calculate_bill y c k =
        .error (.configurationError "Unsupported tariff year.")) ∧
    (∀ y, y ∈ supportedYears → ∀ c (k : ℚ), k < 0 →
      calculate_bill y c k =
        .error (.invalidInputError "kWh cannot be negative.")) ∧
    (∀ y, y ∈ supportedYears → ∀ c, c ∉ categories → ∀ k : ℚ, 0 ≤ k →
      calculate_bill y c k =
        .error (.invalidInputError "Unsupported customer category.")) ∧
    (∀ y, y ∈ supportedYears → ∀ c, c ∈ categories → ∀ k : ℚ, 0 ≤ k →
      ∃ r, calculate_bill y c k = Except.ok r) := by
  refine ⟨?_, ?_, ?_, ?_⟩
  · intro y hy c k
    have h1 : y ≠ "2025" ∧ y ≠ "2026" := by simpa [supportedYears] using hy
    unfold calculate_bill
    rw [show TARIFFS y = none from by simp [TARIFFS, h1.1, h1.2]]
  · intro y hy c k hneg
    obtain ⟨t, ht, _⟩ := tariff_of_year y hy
    unfold calculate_bill
    rw [ht]
    simp [hneg]
  · intro y hy c hcnot k hk
    obtain ⟨t, ht, _⟩ := tariff_of_year y hy
    have h7 : c ≠ "Residential" ∧ c ≠ "Non-Residential" ∧ c ≠ "SLT-LV" ∧
        c ≠ "SLT-MV1/HV" ∧ c ≠ "SLT-MV2" ∧ c ≠ "SLT-HV" ∧
        c ≠ "SLT-HV MINES" := by
      simpa [categories] using hcnot
    obtain ⟨h1, h2, h3, h4, h5, h6, h7'⟩ := h7
    unfold calculate_bill
    rw [ht]
    simp [not_lt.mpr hk, h1, h2, sltRate, h3, h4, h5, h6, h7']
  · intro y hy c hc k hk
    obtain ⟨t, ht, _⟩ := tariff_of_year y hy
    obtain ⟨r, hr, _⟩ := calc_catTotal y t ht c hc k hk
    exact ⟨r, hr⟩

/-- C8: every special-load-tariff category is billed without tiering as
`kwh` times its unit rate plus the flat SLT service charge, and
"SLT-MV1/HV", "SLT-HV" and "SLT-HV MINES" produce identical energy
charges and totals. -/
theorem slt_flat_and_shared_rates (y : String) (hy : y ∈ supportedYears)
    (k : ℚ) (hk : 0 ≤ k) :
    ∃ t, TARIFFS y = some t ∧
      (∀ c, c ∈ ["SLT-LV", "SLT-MV1/HV", "SLT-MV2", "SLT-HV",
          "SLT-HV MINES"] →
        ∃ rt r, sltRate t.rates c = some rt ∧
          calculate_bill y c k = Except.ok r ∧
          r.energy_charge = k * rt ∧ r.service_charge = t.service.SLT) ∧
      (∃ r1 r2 r3,
        calculate_bill y "SLT-MV1/HV" k = Except.ok r1 ∧
        calculate_bill y "SLT-HV" k = Except.ok r2 ∧
        calculate_bill y "SLT-HV MINES" k = Except.ok r3 ∧
        r1.energy_charge = r2.energy_charge ∧
        r2.energy_charge = r3.energy_charge ∧
        r1.total = r2.total ∧ r2.total = r3.total) := by
  obtain ⟨t, ht, hok⟩ := tariff_of_year y hy
  have hmvhv : t.rates.SLT_MV1 = t.rates.SLT_HV :=
    hok.2.2.2.2.2.2.2.2.2.2.2.2.2.2
  refine ⟨t, ht, ?_, ?_⟩
  · intro c hcmem
    have : c = "SLT-LV" ∨ c = "SLT-MV1/HV" ∨ c = "SLT-MV2" ∨
        c = "SLT-HV" ∨ c = "SLT-HV MINES" := by simpa using hcmem
    rcases this with rfl | rfl | rfl | rfl | rfl
    · exact ⟨_, _, (sltRate_vals t.rates).1,
        calc_slt y t ht _ (by decide) (by decide) _
          (sltRate_vals t.rates).1 k hk, rfl, rfl⟩
    · exact ⟨_, _, (sltRate_vals t.rates).2.1,
        calc_slt y t ht _ (by decide) (by decide) _
          (sltRate_vals t.rates).2.1 k hk, rfl, rfl⟩
    · exact ⟨_, _, (sltRate_vals t.rates).2.2.1,
        calc_slt y t ht _ (by decide) (by decide) _
          (sltRate_vals t.rates).2.2.1 k hk, rfl, rfl⟩
    · exact ⟨_, _, (sltRate_vals t.rates).2.2.2.1,
        calc_slt y t ht _ (by decide) (by decide) _
          (sltRate_vals t.rates).2.2.2.1 k hk, rfl, rfl⟩
    · exact ⟨_, _, (sltRate_vals t.rates).2.2.2.2,
        calc_slt y t ht _ (by decide) (by decide) _
          (sltRate_vals t.rates).2.2.2.2 k hk, rfl, rfl⟩
  · refine ⟨_, _, _,
      calc_slt y t ht _ (by decide) (by decide) _
        (sltRate_vals t.rates).2.1 k hk,
      calc_slt y t ht _ (by decide) (by decide) _
        (sltRate_vals t.rates).2.2.2.1 k hk,
      calc_slt y t ht _ (by decide) (by decide) _
        (sltRate_vals t.rates).2.2.2.2 k hk, ?_, ?_, ?_, ?_⟩
    · rw [finishBill_energy, finishBill_energy, hmvhv]
    · rw [finishBill_energy, finishBill_energy]
    · rw [finishBill_total, finishBill_total, hmvhv]
      simp [is_taxable_vals.2.2.2.1, is_taxable_vals.2.2.2.2.2.1]
    · rw [finishBill_total, finishBill_total]
      simp [is_taxable_vals.2.2.2.2.2.1, is_taxable_vals.2.2.2.2.2.2]



theorem expand_hi_ok (y c : String) (f : ℚ → ℚ)
    (hcalc : ∀ k : ℚ, 0 ≤ k →
      ∃ r, calculate_bill y c k = Except.ok r ∧ r.total = f k)
    (hmono : ∀ k1 k2 : ℚ, 0 ≤ k1 → k1 ≤ k2 → f k1 ≤ f k2)
    (target : ℚ) (h19 : target ≤ f ((2:ℚ)^19)) :
    ∀ fuel j, j ≤ 19 → 20 ≤ fuel + j →
      ∃ h, expand_hi y c target ((2:ℚ)^j) fuel = Except.ok h ∧
        (∃ m, m ≤ 19 ∧ h = (2:ℚ)^m) ∧ target ≤ f h := by
  intro fuel
  induction fuel with
  | zero => intro j hj hfj; omega
  | succ n ih =>
    intro j hj hfj
    obtain ⟨r, hr, hrt⟩ := hcalc ((2:ℚ)^j) (by positivity)
    by_cases hlt : r.total < target
    · have hflt : f ((2:ℚ)^j) < target := by rwa [hrt] at hlt
      have hj19 : j ≠ 19 := by
        rintro rfl
        exact absurd h19 (not_le.mpr hflt)
      have hj18 : j + 1 ≤ 19 := by omega
      have hle : ((2:ℚ)^j * 2) ≤ 1000000 := by
        have h2 : (2:ℚ)^j * 2 = 2^(j+1) := by ring
        rw [h2]
        calc (2:ℚ)^(j+1) ≤ 2^19 := by
              apply pow_le_pow_right₀ (by norm_num) hj18
          _ ≤ 1000000 := by norm_num
      obtain ⟨h, hh, hm, hth⟩ := ih (j+1) hj18 (by omega)
      refine ⟨h, ?_, hm, hth⟩
      simp only [expand_hi, hr]
      rw [if_pos hlt, if_neg (not_lt.mpr hle)]
      rw [show (2:ℚ)^j * 2 = 2^(j+1) from by ring]
      exact hh
    · refine ⟨(2:ℚ)^j, ?_, ⟨j, hj, rfl⟩, ?_⟩
      · simp only [expand_hi, hr]
        rw [if_neg hlt]
      · rw [← hrt]; exact not_lt.mp hlt

theorem expand_hi_err (y c : String) (f : ℚ → ℚ)
    (hcalc : ∀ k : ℚ, 0 ≤ k →
      ∃ r, calculate_bill y c k = Except.ok r ∧ r.total = f k)
    (hmono : ∀ k1 k2 : ℚ, 0 ≤ k1 → k1 ≤ k2 → f k1 ≤ f k2)
    (target : ℚ) (h19 : f ((2:ℚ)^19) < target) :
    ∀ fuel j, j ≤ 19 →
      expand_hi y c target ((2:ℚ)^j) fuel =
        .error (.searchBoundError
          "Unable to estimate kWh for this bill amount.") := by
  intro fuel
  induction fuel with
  | zero => intro j hj; rfl
  | succ n ih =>
    intro j hj
    obtain ⟨r, hr, hrt⟩ := hcalc ((2:ℚ)^j) (by positivity)
    have hmle : f ((2:ℚ)^j) ≤ f ((2:ℚ)^19) :=
      hmono _ _ (by positivity) (pow_le_pow_right₀ (by norm_num) hj)
    have hlt : r.total < target := by rw [hrt]; linarith
    simp only [expand_hi, hr]
    rw [if_pos hlt]
    by_cases hbig : ((2:ℚ)^j * 2) > 1000000
    · rw [if_pos hbig]
    · rw [if_neg hbig]
      have hj18 : j + 1 ≤ 19 := by
        by_contra hcon
        have h20 : 20 ≤ j + 1 := by omega
        have : (2:ℚ)^20 ≤ 2^(j+1) := pow_le_pow_right₀ (by norm_num) h20
        have h2 : (2:ℚ)^j * 2 = 2^(j+1) := by ring
        rw [not_lt, h2] at hbig
        have : (2:ℚ)^20 ≤ 1000000 := le_trans this hbig
        norm_num at this
      rw [show (2:ℚ)^j * 2 = 2^(j+1) from by ring]
      exact ih (j+1) hj18

theorem expand_hi_ok_bound (y c : String) (target : ℚ) :
    ∀ fuel j (h : ℚ), j ≤ 19 →
      expand_hi y c target ((2:ℚ)^j) fuel = Except.ok h →
      ∃ m, m ≤ 19 ∧ h = (2:ℚ)^m := by
  intro fuel
  induction fuel with
  | zero => intro j h hj hyp; exact absurd hyp (by simp [expand_hi])
  | succ n ih =>
    intro j h hj hyp
    rcases hcb : calculate_bill y c ((2:ℚ)^j) with e | r
    · rw [expand_hi, hcb] at hyp
      exact absurd hyp (by simp)
    · rw [expand_hi, hcb] at hyp
      simp only at hyp
      by_cases hlt : r.total < target
      · rw [if_pos hlt] at hyp
        by_cases hbig : ((2:ℚ)^j * 2) > 1000000
        · rw [if_pos hbig] at hyp
          exact absurd hyp (by simp)
        · rw [if_neg hbig] at hyp
          have hj18 : j + 1 ≤ 19 := by
            by_contra hcon
            have h20 : 20 ≤ j + 1 := by omega
            have hp : (2:ℚ)^20 ≤ 2^(j+1) := pow_le_pow_right₀ (by norm_num) h20
            have h2 : (2:ℚ)^j * 2 = 2^(j+1) := by ring
            rw [not_lt, h2] at hbig
            have : (2:ℚ)^20 ≤ 1000000 := le_trans hp hbig
            norm_num at this
          rw [show (2:ℚ)^j * 2 = 2^(j+1) from by ring] at hyp
          exact ih (j+1) h hj18 hyp
      · rw [if_neg hlt] at hyp
        injection hyp with e
        exact ⟨j, hj, e.symm⟩

theorem bisect_range (y c : String) (target tol : ℚ) :
    ∀ fuel (lo hi m : ℚ), lo ≤ hi →
      bisect_kwh y c target tol lo hi fuel = Except.ok m →
      lo ≤ m ∧ m ≤ hi := by
  intro fuel
  induction fuel with
  | zero =>
    intro lo hi m hlh hyp
    rw [bisect_kwh] at hyp
    injection hyp with e
    constructor <;> [linarith [e]; linarith [e]]
  | succ n ih =>
    intro lo hi m hlh hyp
    rcases hcb : calculate_bill y c ((lo + hi) / 2) with e | r
    · rw [bisect_kwh, hcb] at hyp
      exact absurd hyp (by simp)
    · rw [bisect_kwh, hcb] at hyp
      simp only at hyp
      by_cases htol : |r.total - target| ≤ tol
      · rw [if_pos htol] at hyp
        injection hyp with e
        constructor <;> [linarith [e]; linarith [e]]
      · rw [if_neg htol] at hyp
        by_cases hneg : r.total - target < 0
        · rw [if_pos hneg] at hyp
          have := ih ((lo + hi)/2) hi m (by linarith) hyp
          exact ⟨by linarith [this.1], this.2⟩
        · rw [if_neg hneg] at hyp
          have := ih lo ((lo + hi)/2) m (by linarith) hyp
          exact ⟨this.1, by linarith [this.2]⟩



theorem bisect_kwh_spec (y c : String) (f : ℚ → ℚ)
    (hcalc : ∀ k : ℚ, 0 ≤ k →
      ∃ r, calculate_bill y c k = Except.ok r ∧ r.total = f k)
    (target tol : ℚ) :
    ∀ fuel (lo hi : ℚ), 0 ≤ lo → lo ≤ hi →
      ∃ m, bisect_kwh y c target tol lo hi fuel = Except.ok m ∧
        lo ≤ m ∧ m ≤ hi ∧
        (|f m - target| ≤ tol ∨
          ∃ lo2 hi2, lo ≤ lo2 ∧ lo2 ≤ hi2 ∧ hi2 ≤ hi ∧
            hi2 - lo2 ≤ (hi - lo) / 2 ^ fuel ∧ m = (lo2 + hi2) / 2 ∧
            (f lo2 < target - tol ∨ lo2 = lo) ∧
            (target + tol < f hi2 ∨ hi2 = hi)) := by
  intro fuel
  induction fuel with
  | zero =>
    intro lo hi hlo0 hlh
    refine ⟨(lo + hi) / 2, by rw [bisect_kwh], by linarith, by linarith,
      Or.inr ⟨lo, hi, le_rfl, hlh, le_rfl, by simp, rfl, Or.inr rfl,
        Or.inr rfl⟩⟩
  | succ n ih =>
    intro lo hi hlo0 hlh
    have hmid0 : (0:ℚ) ≤ (lo + hi) / 2 := by linarith
    obtain ⟨r, hr, hrt⟩ := hcalc ((lo + hi) / 2) hmid0
    by_cases htol : |r.total - target| ≤ tol
    · refine ⟨(lo + hi) / 2, ?_, by linarith, by linarith, Or.inl ?_⟩
      · rw [bisect_kwh, hr]
        simp only
        rw [if_pos htol]
      · rwa [hrt] at htol
    · by_cases hneg : r.total - target < 0
      · -- f mid < target - tol; recurse on [mid, hi]
        have hmlt : f ((lo + hi) / 2) < target - tol := by
          rw [not_le] at htol
          rw [abs_of_neg hneg] at htol
          rw [← hrt]
          linarith
        obtain ⟨m, hm, hm1, hm2, hdisj⟩ := ih ((lo + hi) / 2) hi hmid0
          (by linarith)
        refine ⟨m, ?_, by linarith, hm2, ?_⟩
        · rw [bisect_kwh, hr]
          simp only
          rw [if_neg htol, if_pos hneg]
          exact hm
        · rcases hdisj with h | ⟨lo2, hi2, hl1, hl2, hl3, hw, hmeq, hdlo, hdhi⟩
          · exact Or.inl h
          · refine Or.inr ⟨lo2, hi2, by linarith, hl2, hl3, ?_, hmeq, ?_, hdhi⟩
            · have heq : (hi - (lo + hi) / 2) / 2 ^ n = (hi - lo) / 2 ^ (n+1) := by
                rw [pow_succ]
                field_simp
                ring
              rw [← heq]
              exact hw
            · rcases hdlo with h | rfl
              · exact Or.inl h
              · exact Or.inl hmlt
      · -- target + tol < f mid; recurse on [lo, mid]
        have hmgt : target + tol < f ((lo + hi) / 2) := by
          rw [not_le] at htol
          rw [not_lt] at hneg
          rw [abs_of_nonneg hneg] at htol
          rw [← hrt]
          linarith
        obtain ⟨m, hm, hm1, hm2, hdisj⟩ := ih lo ((lo + hi) / 2) hlo0
          (by linarith)
        refine ⟨m, ?_, hm1, by linarith, ?_⟩
        · rw [bisect_kwh, hr]
          simp only
          rw [if_neg htol, if_neg hneg]
          exact hm
        · rcases hdisj with h | ⟨lo2, hi2, hl1, hl2, hl3, hw, hmeq, hdlo, hdhi⟩
          · exact Or.inl h
          · refine Or.inr ⟨lo2, hi2, hl1, hl2, by linarith, ?_, hmeq, hdlo, ?_⟩
            · have heq : ((lo + hi) / 2 - lo) / 2 ^ n = (hi - lo) / 2 ^ (n+1) := by
                rw [pow_succ]
                field_simp
                ring
              rw [← heq]
              exact hw
            · rcases hdhi with h | rfl
              · exact Or.inl h
              · exact Or.inl hmgt



theorem tiny_bracket (f : ℚ → ℚ) (target tol dlt lo hi kstar : ℚ)
    (hstrict : ∀ k1 k2 : ℚ, 0 ≤ k1 → k1 < k2 → f k1 < f k2)
    (hlip1 : ∀ k1 k2 : ℚ, 0 ≤ k1 → k1 ≤ k2 → k2 ≤ 30 →
      f k2 - f k1 ≤ 4 * (k2 - k1))
    (hlip2 : ∀ k1 k2 : ℚ, 30 < k1 → k1 ≤ k2 → f k2 - f k1 ≤ 4 * (k2 - k1))
    (hd4 : 4 * dlt ≤ tol) (hd0 : 0 ≤ dlt) (hd30 : dlt ≤ 30)
    (hlo0 : 0 ≤ lo) (hlohi : lo ≤ hi) (hw : hi - lo ≤ dlt)
    (hks0 : 0 ≤ kstar) (hkst : f kstar = target)
    (hlo : f lo < target - tol ∨ lo = 0)
    (hhi : target + tol < f hi ∨
      (target ≤ f hi ∧ ¬(30 < hi ∧ hi ≤ 30 + dlt))) :
    |f ((lo + hi) / 2) - target| ≤ tol := by
  have htol0 : 0 ≤ tol := by linarith
  have hmono : ∀ k1 k2 : ℚ, 0 ≤ k1 → k1 ≤ k2 → f k1 ≤ f k2 := by
    intro k1 k2 h0 h
    rcases eq_or_lt_of_le h with rfl | hlt
    · exact le_rfl
    · exact (hstrict k1 k2 h0 hlt).le
  have hm1 : lo ≤ (lo + hi) / 2 := by linarith
  have hm2 : (lo + hi) / 2 ≤ hi := by linarith
  have hm0 : 0 ≤ (lo + hi) / 2 := by linarith
  have hflo : f lo ≤ target := by
    rcases hlo with h | rfl
    · linarith
    · rw [← hkst]; exact hmono 0 kstar le_rfl hks0
  have hfhi : target ≤ f hi := by
    rcases hhi with h | ⟨h, _⟩ <;> linarith
  have hklo : lo ≤ kstar := by
    by_contra hcon
    rw [not_le] at hcon
    have := hstrict kstar lo hks0 hcon
    rw [hkst] at this
    linarith
  have hkhi : kstar ≤ hi := by
    by_contra hcon
    rw [not_le] at hcon
    have := hstrict hi kstar (le_trans hlo0 hlohi) hcon
    rw [hkst] at this
    linarith
  rw [← hkst]
  rw [abs_le]
  by_cases hhi30 : hi ≤ 30
  · -- whole bracket within the lifeline piece
    rcases le_total ((lo + hi) / 2) kstar with hmk | hmk
    · have h1 := hlip1 _ kstar hm0 hmk (le_trans hkhi hhi30)
      have h2 := hmono _ kstar hm0 hmk
      constructor <;> linarith [hlip1 lo kstar hlo0 hklo (le_trans hkhi hhi30)]
    · have h1 := hlip1 kstar _ hks0 hmk (le_trans hm2 hhi30)
      have h2 := hmono kstar _ hks0 hmk
      constructor <;> linarith
  · by_cases hlo30 : 30 < lo
    · -- whole bracket within the block piece
      rcases le_total ((lo + hi) / 2) kstar with hmk | hmk
      · have h1 := hlip2 _ kstar (lt_of_lt_of_le hlo30 hm1) hmk
        have h2 := hmono _ kstar hm0 hmk
        constructor <;> linarith
      · have h1 := hlip2 kstar _ (lt_of_lt_of_le hlo30 hklo) hmk
        have h2 := hmono kstar _ hks0 hmk
        constructor <;> linarith
    · -- straddle: lo ≤ 30 < hi
      rw [not_le] at hhi30
      rw [not_lt] at hlo30
      by_cases hk30 : kstar ≤ 30
      · -- target is reached in the lifeline piece
        rcases hlo with h | rfl
        · exfalso
          have h1 := hlip1 lo kstar hlo0 hklo hk30
          linarith
        · exfalso
          have : hi ≤ dlt := by linarith
          linarith
      · -- target is reached in the block piece
        rw [not_le] at hk30
        rcases le_or_lt ((lo + hi) / 2) 30 with hmid30 | hmid30
        · exfalso
          rcases hhi with h | ⟨_, hnot⟩
          · have h1 := hlip2 kstar hi hk30 hkhi
            linarith
          · exact hnot ⟨hhi30, by linarith⟩
        · rcases le_total ((lo + hi) / 2) kstar with hmk | hmk
          · have h1 := hlip2 _ kstar hmid30 hmk
            have h2 := hmono _ kstar hm0 hmk
            constructor <;> linarith
          · have h1 := hlip2 kstar _ hk30 hmk
            have h2 := hmono kstar _ hks0 hmk
            constructor <;> linarith



theorem invert_roundtrip (y c : String) (f : ℚ → ℚ)
    (hcalc : ∀ k : ℚ, 0 ≤ k →
      ∃ r, calculate_bill y c k = Except.ok r ∧ r.total = f k)
    (hstrict : ∀ k1 k2 : ℚ, 0 ≤ k1 → k1 < k2 → f k1 < f k2)
    (hlip1 : ∀ k1 k2 : ℚ, 0 ≤ k1 → k1 ≤ k2 → k2 ≤ 30 →
      f k2 - f k1 ≤ 4 * (k2 - k1))
    (hlip2 : ∀ k1 k2 : ℚ, 30 < k1 → k1 ≤ k2 → f k2 - f k1 ≤ 4 * (k2 - k1))
    (target : ℚ) (htpos : 0 < target)
    (kstar : ℚ) (hks0 : 0 ≤ kstar) (hks524 : kstar ≤ 524288)
    (hkst : f kstar = target) :
    ∃ m, invert_bill_to_kwh y c target 0.01 60 = Except.ok m ∧ 0 ≤ m ∧
      |f m - target| ≤ 0.01 := by
  have hmono : ∀ k1 k2 : ℚ, 0 ≤ k1 → k1 ≤ k2 → f k1 ≤ f k2 := by
    intro k1 k2 h0 h
    rcases eq_or_lt_of_le h with rfl | hlt
    · exact le_rfl
    · exact (hstrict k1 k2 h0 hlt).le
  have h19 : target ≤ f ((2:ℚ)^19) := by
    rw [← hkst]
    exact hmono kstar _ hks0 (by norm_num; linarith)
  obtain ⟨h0, hexp, ⟨j, hj19, hjeq⟩, hth0⟩ :=
    expand_hi_ok y c f hcalc hmono target h19 20 0 (by omega) (by omega)
  have h0pos : (0:ℚ) < h0 := by rw [hjeq]; positivity
  obtain ⟨m, hbis, hm1, hm2, hdisj⟩ :=
    bisect_kwh_spec y c f hcalc target 0.01 60 0 h0 le_rfl h0pos.le
  refine ⟨m, ?_, hm1, ?_⟩
  · unfold invert_bill_to_kwh
    rw [if_neg (not_le.mpr htpos)]
    rw [show (1:ℚ) = 2^0 from by norm_num]
    rw [hexp]
    exact hbis
  · rcases hdisj with h | ⟨lo2, hi2, hl1, hl2, hl3, hw, hmeq, hdlo, hdhi⟩
    · exact h
    · subst hmeq
      have hh019 : h0 ≤ (2:ℚ)^19 := by
        rw [hjeq]
        exact pow_le_pow_right₀ (by norm_num) hj19
      refine tiny_bracket f target 0.01 ((2:ℚ)^19 / 2^60) lo2 hi2 kstar
        hstrict hlip1 hlip2 (by norm_num) (by positivity) (by norm_num)
        hl1 hl2 ?_ hks0 hkst hdlo ?_
      · calc hi2 - lo2 ≤ (h0 - 0) / 2 ^ 60 := hw
          _ ≤ (2:ℚ)^19 / 2^60 := by
            rw [sub_zero]
            exact (div_le_div_iff_of_pos_right (by positivity)).mpr hh019
      · rcases hdhi with h | rfl
        · exact Or.inl h
        · refine Or.inr ⟨hth0, ?_⟩
          rintro ⟨hgt, hle⟩
          rw [hjeq] at hgt hle
          by_cases hj4 : j ≤ 4
          · have : (2:ℚ)^j ≤ 2^4 := pow_le_pow_right₀ (by norm_num) hj4
            norm_num at this
            linarith
          · have h5 : 5 ≤ j := by omega
            have : (2:ℚ)^5 ≤ 2^j := pow_le_pow_right₀ (by norm_num) h5
            norm_num at this
            have hd1 : ((2:ℚ)^19 / 2^60) ≤ 1 := by norm_num
            linarith

/-- C7: for every supported year, recognized category, and positive
target total reachable within the search bounds, `invert_bill_to_kwh`
(with the default tolerance 0.01 and 60 iterations) succeeds and
re-billing the returned consumption gives a total within 0.01 of the
target. -/
theorem invert_bill_roundtrip (y c : String)
    (hy : y ∈ supportedYears) (hc : c ∈ categories)
    (target : ℚ) (htpos : 0 < target)
    (hreach : ∃ k : ℚ, 0 ≤ k ∧ k ≤ 524288 ∧
      ∃ rk, calculate_bill y c k = Except.ok rk ∧ rk.total = target) :
    ∃ m, invert_bill_to_kwh y c target 0.01 60 = Except.ok m ∧
      ∃ r, calculate_bill y c m = Except.ok r ∧
        |r.total - target| ≤ 0.01 := by
  obtain ⟨t, ht, hok⟩ := tariff_of_year y hy
  have hcalc : ∀ k : ℚ, 0 ≤ k →
      ∃ r, calculate_bill y c k = Except.ok r ∧ r.total = catTotal t c k :=
    fun k hk => calc_catTotal y t ht c hc k hk
  have hstrict : ∀ k1 k2 : ℚ, 0 ≤ k1 → k1 < k2 →
      catTotal t c k1 < catTotal t c k2 :=
    fun k1 k2 h0 h => catTotal_strictMono t hok c hc k1 k2 h0 h
  have hlip1 : ∀ k1 k2 : ℚ, 0 ≤ k1 → k1 ≤ k2 → k2 ≤ 30 →
      catTotal t c k2 - catTotal t c k1 ≤ 4 * (k2 - k1) :=
    fun k1 k2 h0 h h30 => catTotal_lip1 t hok c hc k1 k2 h0 h h30
  have hlip2 : ∀ k1 k2 : ℚ, 30 < k1 → k1 ≤ k2 →
      catTotal t c k2 - catTotal t c k1 ≤ 4 * (k2 - k1) :=
    fun k1 k2 h30 h => catTotal_lip2 t hok c hc k1 k2 h30 h
  obtain ⟨k, hk0, hk524, rk, hrk, hrkt⟩ := hreach
  have hfk : catTotal t c k = target := by
    obtain ⟨r', hr', ht'⟩ := hcalc k hk0
    rw [hrk] at hr'
    injection hr' with e
    rw [← ht', ← e, hrkt]
  obtain ⟨m, hinv, hm0, habs⟩ :=
    invert_roundtrip y c (catTotal t c) hcalc hstrict hlip1 hlip2 target
      htpos k hk0 hk524 hfk
  obtain ⟨r, hr, hrt⟩ := hcalc m hm0
  exact ⟨m, hinv, r, hr, by rw [hrt]; exact habs⟩



/-- C9: the inverter returns 0 immediately for every
non-positive target (for arbitrary year and category, showing no
calculator call is made), and fails with `SearchBoundError` when even
the largest bracket bound tried (2^19 = 524288, after which doubling
exceeds 1,000,000) bills below the target. -/
theorem invert_bill_shortcut_and_bound :
    (∀ (y c : String) (target tol : ℚ) (n : Nat), target ≤ 0 →
      invert_bill_to_kwh y c target tol n = Except.ok 0) ∧
    (∀ y c, y ∈ supportedYears → c ∈ categories →
      ∀ target : ℚ, 0 < target →
      (∃ r, calculate_bill y c 524288 = Except.ok r ∧ r.total < target) →
      ∀ (tol : ℚ) (n : Nat),
        invert_bill_to_kwh y c target tol n =
          .error (.searchBoundError
            "Unable to estimate kWh for this bill amount.")) := by
  constructor
  · intro y c target tol n h
    unfold invert_bill_to_kwh
    rw [if_pos h]
  · intro y c hy hc target htpos hbelow tol n
    obtain ⟨t, ht, hok⟩ := tariff_of_year y hy
    have hcalc : ∀ k : ℚ, 0 ≤ k →
        ∃ r, calculate_bill y c k = Except.ok r ∧ r.total = catTotal t c k :=
      fun k hk => calc_catTotal y t ht c hc k hk
    have hmono : ∀ k1 k2 : ℚ, 0 ≤ k1 → k1 ≤ k2 →
        catTotal t c k1 ≤ catTotal t c k2 :=
      fun k1 k2 h0 h => catTotal_mono t hok c hc k1 k2 h0 h
    obtain ⟨r, hr, hrlt⟩ := hbelow
    have h19 : catTotal t c ((2:ℚ)^19) < target := by
      obtain ⟨r', hr', ht'⟩ := hcalc 524288 (by norm_num)
      rw [hr] at hr'
      injection hr' with e
      have h524 : ((2:ℚ)^19) = 524288 := by norm_num
      rw [h524, ← ht', ← e]
      exact hrlt
    unfold invert_bill_to_kwh
    rw [if_neg (not_le.mpr htpos)]
    rw [show (1:ℚ) = 2^0 from by norm_num]
    rw [expand_hi_err y c (catTotal t c) hcalc hmono target h19 20 0
      (by omega)]

/-- C10: whenever `invert_bill_to_kwh` returns normally, the returned
consumption lies in [0, 524288]: the bracket's upper bound is a power of
two that never exceeds 2^19 (doubling past it aborts the search), and
bisection stays inside the bracket. -/
theorem invert_bill_range (y c : String) (target tol : ℚ) (n : Nat)
    (m : ℚ) (h : invert_bill_to_kwh y c target tol n = Except.ok m) :
    0 ≤ m ∧ m ≤ 524288 := by
  unfold invert_bill_to_kwh at h
  by_cases ht0 : target ≤ 0
  · rw [if_pos ht0] at h
    injection h with e
    subst e
    norm_num
  · rw [if_neg ht0] at h
    rw [show (1:ℚ) = 2^0 from by norm_num] at h
    rcases hexp : expand_hi y c target ((2:ℚ)^0) 20 with e | h0
    · rw [hexp] at h
      exact absurd h (by simp)
    · rw [hexp] at h
      simp only at h
      obtain ⟨j, hj19, rfl⟩ :=
        expand_hi_ok_bound y c target 20 0 h0 (by omega) hexp
      have hrange := bisect_range y c target tol n 0 ((2:ℚ)^j) m
        (by positivity) h
      refine ⟨hrange.1, le_trans hrange.2 ?_⟩
      calc (2:ℚ)^j ≤ 2^19 := pow_le_pow_right₀ (by norm_num) hj19
        _ = 524288 := by norm_num



theorem calculate_bill_total_invariant_witness :
    ("2025" : String) ∈ supportedYears ∧
    ("Residential" : String) ∈ categories ∧ (0:ℚ) ≤ 20 ∧
    (∃ r, calculate_bill "2025" "Residential" 20 = Except.ok r ∧
      r.total = r.energy_charge + r.service_charge + r.levy + r.tax ∧
      r.breakdown.getLast? = some ⟨"Total payable", r.total⟩) :=
  ⟨by decide, by decide, by norm_num,
    calculate_bill_total_invariant "2025" "Residential" (by decide)
      (by decide) 20 (by norm_num)⟩

theorem calculate_bill_levy_tax_witness :
    ("2026" : String) ∈ supportedYears ∧
    ("SLT-MV2" : String) ∈ categories ∧ (0:ℚ) ≤ 50 ∧
    (∃ r, calculate_bill "2026" "SLT-MV2" 50 = Except.ok r ∧
      r.levy = 0.05 * r.energy_charge ∧
      (("Residential".toList).isPrefixOf ("SLT-MV2" : String).toList = true →
        r.tax = 0) ∧
      (("Residential".toList).isPrefixOf ("SLT-MV2" : String).toList = false →
        r.tax = 0.20 * (r.energy_charge + r.service_charge))) :=
  ⟨by decide, by decide, by norm_num,
    calculate_bill_levy_tax "2026" "SLT-MV2" (by decide) (by decide) 50
      (by norm_num)⟩

theorem residential_tiering_witness :
    ("2025" : String) ∈ supportedYears ∧ (0:ℚ) ≤ 30 ∧
    (∃ t, TARIFFS "2025" = some t ∧
      ∃ r, calculate_bill "2025" "Residential" 30 = Except.ok r ∧
        ((30:ℚ) ≤ 30 →
          r.energy_charge = 30 * t.rates.RES_LIFELINE ∧
          r.service_charge = t.service.residentialLifeline ∧
          r.breakdown =
            [⟨"Energy charge (Lifeline)", 30 * t.rates.RES_LIFELINE⟩,
             ⟨"Service charge", r.service_charge⟩, ⟨"Levies", r.levy⟩,
             ⟨"Taxes", r.tax⟩, ⟨"Total payable", r.total⟩]) ∧
        ((30:ℚ) < 30 →
          r.energy_charge =
            min 30 300 * t.rates.RES_B1 + max 0 (30 - 300) * t.rates.RES_B2 ∧
          r.service_charge = t.service.residentialOther)) :=
  ⟨by decide, by norm_num,
    residential_tiering "2025" (by decide) 30 (by norm_num)⟩

theorem breakdown_structure_witness :
    ("2025" : String) ∈ supportedYears ∧
    ("Non-Residential" : String) ∈ categories ∧ (0:ℚ) ≤ 300 ∧
    (∃ r, calculate_bill "2025" "Non-Residential" 300 = Except.ok r ∧
      (∃ pre, r.breakdown = pre ++
        [⟨"Service charge", r.service_charge⟩, ⟨"Levies", r.levy⟩,
         ⟨"Taxes", r.tax⟩, ⟨"Total payable", r.total⟩]) ∧
      (("Non-Residential" = "Non-Residential" ∨
          ("Non-Residential" = "Residential" ∧ (300:ℚ) > 30)) →
        ((∃ a, (⟨"Energy charge block 2", a⟩ : BillLine) ∈ r.breakdown) ↔
          (300:ℚ) > 300))) :=
  ⟨by decide, by decide, by norm_num,
    breakdown_structure "2025" "Non-Residential" (by decide) (by decide)
      300 (by norm_num)⟩

theorem calculate_bill_errors_witness :
    calculate_bill "2099" "Residential" 10 =
      .error (.configurationError "Unsupported tariff year.") :=
  calculate_bill_errors.1 "2099" (by decide) "Residential" 10

theorem calculate_bill_total_monotone_witness :
    ("2025" : String) ∈ supportedYears ∧
    ("Residential" : String) ∈ categories ∧
    (0:ℚ) ≤ 0 ∧ (0:ℚ) ≤ 1 ∧
    calculate_bill "2025" "Residential" 0 =
      Except.ok (finishBill "2025" "Residential" 0
        (0 * tariff2025.rates.RES_LIFELINE)
        tariff2025.service.residentialLifeline
        [⟨"Energy charge (Lifeline)", 0 * tariff2025.rates.RES_LIFELINE⟩]) ∧
    calculate_bill "2025" "Residential" 1 =
      Except.ok (finishBill "2025" "Residential" 1
        (1 * tariff2025.rates.RES_LIFELINE)
        tariff2025.service.residentialLifeline
        [⟨"Energy charge (Lifeline)", 1 * tariff2025.rates.RES_LIFELINE⟩]) ∧
    (finishBill "2025" "Residential" 0
        (0 * tariff2025.rates.RES_LIFELINE)
        tariff2025.service.residentialLifeline
        [⟨"Energy charge (Lifeline)",
          0 * tariff2025.rates.RES_LIFELINE⟩]).total ≤
      (finishBill "2025" "Residential" 1
        (1 * tariff2025.rates.RES_LIFELINE)
        tariff2025.service.residentialLifeline
        [⟨"Energy charge (Lifeline)",
          1 * tariff2025.rates.RES_LIFELINE⟩]).total := by
  have ht : TARIFFS "2025" = some tariff2025 := by simp [TARIFFS]
  have h1 := calc_res_lifeline "2025" tariff2025 ht 0 le_rfl (by norm_num)
  have h2 := calc_res_lifeline "2025" tariff2025 ht 1 (by norm_num)
    (by norm_num)
  exact ⟨by decide, by decide, le_rfl, by norm_num, h1, h2,
    calculate_bill_total_monotone "2025" "Residential" (by decide)
      (by decide) 0 1 le_rfl (by norm_num) _ _ h1 h2⟩

theorem slt_flat_and_shared_rates_witness :
    ("2026" : String) ∈ supportedYears ∧ (0:ℚ) ≤ 100 ∧
    (∃ t, TARIFFS "2026" = some t ∧
      (∀ c, c ∈ ["SLT-LV", "SLT-MV1/HV", "SLT-MV2", "SLT-HV",
          "SLT-HV MINES"] →
        ∃ rt r, sltRate t.rates c = some rt ∧
          calculate_bill "2026" c 100 = Except.ok r ∧
          r.energy_charge = 100 * rt ∧ r.service_charge = t.service.SLT) ∧
      (∃ r1 r2 r3,
        calculate_bill "2026" "SLT-MV1/HV" 100 = Except.ok r1 ∧
        calculate_bill "2026" "SLT-HV" 100 = Except.ok r2 ∧
        calculate_bill "2026" "SLT-HV MINES" 100 = Except.ok r3 ∧
        r1.energy_charge = r2.energy_charge ∧
        r2.energy_charge = r3.energy_charge ∧
        r1.total = r2.total ∧ r2.total = r3.total)) :=
  ⟨by decide, by norm_num,
    slt_flat_and_shared_rates "2026" (by decide) 100 (by norm_num)⟩

theorem invert_bill_range_witness :
    invert_bill_to_kwh "2025" "Residential" 0 0.01 60 = Except.ok 0 ∧
    (0:ℚ) ≤ 0 ∧ (0:ℚ) ≤ 524288 := by
  have h : invert_bill_to_kwh "2025" "Residential" 0 0.01 60 =
      Except.ok 0 := by
    unfold invert_bill_to_kwh
    rw [if_pos le_rfl]
  exact ⟨h, (invert_bill_range "2025" "Residential" 0 0.01 60 0 h).1,
    (invert_bill_range "2025" "Residential" 0 0.01 60 0 h).2⟩

theorem invert_bill_shortcut_and_bound_witness :
    ((-1 : ℚ) ≤ 0) ∧
    invert_bill_to_kwh "2099" "Residential" (-1) 0.01 60 = Except.ok 0 :=
  ⟨by norm_num,
    invert_bill_shortcut_and_bound.1 "2099" "Residential" (-1) 0.01 60
      (by norm_num)⟩

theorem invert_bill_roundtrip_witness :
    ("2025" : String) ∈ supportedYears ∧
    ("SLT-LV" : String) ∈ categories ∧ (0:ℚ) < 600 ∧
    (∃ k : ℚ, 0 ≤ k ∧ k ≤ 524288 ∧
      ∃ rk, calculate_bill "2025" "SLT-LV" k = Except.ok rk ∧
        rk.total = 600) ∧
    (∃ m, invert_bill_to_kwh "2025" "SLT-LV" 600 0.01 60 = Except.ok m ∧
      ∃ r, calculate_bill "2025" "SLT-LV" m = Except.ok r ∧
        |r.total - 600| ≤ 0.01) := by
  have ht : TARIFFS "2025" = some tariff2025 := by simp [TARIFFS]
  have hreach : ∃ k : ℚ, 0 ≤ k ∧ k ≤ 524288 ∧
      ∃ rk, calculate_bill "2025" "SLT-LV" k = Except.ok rk ∧
        rk.total = 600 := by
    refine ⟨0, le_rfl, by norm_num, _,
      calc_slt "2025" tariff2025 ht "SLT-LV" (by decide) (by decide)
        tariff2025.rates.SLT_LV (sltRate_vals tariff2025.rates).1 0
        le_rfl, ?_⟩
    rw [finishBill_total]
    simp [is_taxable_vals.2.2.1]
    norm_num [tariff2025, LEVY_RATE, TAX_RATE]
  exact ⟨by decide, by decide, by norm_num, hreach,
    invert_bill_roundtrip "2025" "SLT-LV" (by decide) (by decide) 600
      (by norm_num) hreach⟩
